import Mathlib

/-!
Verification of the handover pipeline of `ensembl-prodinf-core`
(`src/ensembl_prodinf/handover_tasks.py`).

The module orchestrates a multi-stage database handover:
intake (`handover_database`) classifies the source URI (`groups_for_uri`),
submits either a health-check job (`submit_hc`) or a copy job
(`submit_copy`), and celery tasks (`process_checked_db`,
`process_copied_db`, `process_db_metadata`) poll the external job services,
retrying while a job is unfinished and branching on terminal statuses.

The embedding is shallow: each Python function becomes a pure Lean function.
External effects are made explicit:
* results of external calls (`retrieve_job`, `submit_job`, `uuid`,
  `database_exists`, URL parsing) are passed in as arguments;
* e-mails sent through `send_email` are returned as a list of `EmailMsg`;
* a raised Python exception becomes an explicit error outcome (`PyErr`);
* `raise self.retry()` (celery rescheduling) becomes a distinct outcome
  constructor, separate from errors.
The handover dict `spec` becomes a record: keys that the module requires
(`src_uri`, `contact`) are plain fields, keys that may be absent are
`Option` fields with `none` meaning "key not present in the dict".
-/

/-- Module configuration (`handover_config` / `cfg`): only the attributes
read by `handover_tasks.py`. -/
structure Config where
  staging_uri : String
  hc_uri : String
  hc_web_uri : String
  copy_uri : String
  copy_web_uri : String
  smtp_server : String
  core_handover_group : String
  variation_handover_group : String
  compara_handover_group : String
  funcgen_handover_group : String
  deriving DecidableEq, Repr

/-- One message passed to `send_email` (recipient, subject, body). -/
structure EmailMsg where
  to_addr : String
  subject : String
  body : String
  deriving DecidableEq, Repr

/-- The handover request dict. `src_uri` and `contact` are required keys
(read unguarded by every stage); the remaining keys may be absent (`none`).
`metadata_job_id` is the metadata job-id field of the data model; the code
never writes this key, so it can only ever hold its initial value.
The `type` and `comment` keys are never read by the module and are omitted. -/
structure HandoverSpec where
  src_uri : String
  contact : String
  tgt_uri : Option String
  handover_token : Option String
  hc_job_id : Option String
  copy_job_id : Option String
  metadata_job_id : Option String
  deriving DecidableEq, Repr

/-- The nested `output` payload of a job-status response; its own `status`
key may be absent (`none`), modelling a malformed payload. -/
structure JobOutput where
  status : Option String
  deriving DecidableEq, Repr

/-- A job-status response from `retrieve_job`: a `status` key (absent in a
malformed payload) and an optional nested `output` payload. -/
structure JobResult where
  status : Option String
  output : Option JobOutput
  deriving DecidableEq, Repr

/-- A Python exception escaping a pipeline step. -/
inductive PyErr where
  /-- transport/parse failure raised by a job client's `retrieve_job`. -/
  | queryError (msg : String)
  /-- dict lookup of a missing key (malformed payload or missing spec key). -/
  | keyError (key : String)
  /-- `ValueError` raised by `check_db` for a missing source database. -/
  | valueError (msg : String)
  deriving DecidableEq, Repr

/-! ### Classifier (`groups_for_uri`)

The four compiled patterns all have the shape
`.*[a-z]_(kw1|…|kwN)_[0-9].*` and are applied with `re.match`.  Such a
pattern accepts `uri` iff `uri` contains an occurrence of
`<lowercase letter> '_' kw '_' <digit>` whose start is reachable from
position 0 through non-newline characters (the leading `.*` cannot cross
`'\n'`; the trailing `.*` may be empty). -/

/-- `[a-z]` character class. -/
def isLowerAlpha (c : Char) : Bool := 'a' ≤ c && c ≤ 'z'

/-- `[0-9]` character class. -/
def isDigitChar (c : Char) : Bool := '0' ≤ c && c ≤ '9'

/-- After the leading letter and first `'_'`: the keyword, a second `'_'`,
and a digit. -/
def kwTailMatch : List Char → List Char → Bool
  | [], u :: d :: _ => u == '_' && isDigitChar d
  | k :: ks, c :: cs => k == c && kwTailMatch ks cs
  | _, _ => false

/-- `[a-z]_kw_[0-9]` matches at the head of `s`. -/
def hcPatternAt (kw : List Char) (s : List Char) : Bool :=
  match s with
  | a :: u :: rest => isLowerAlpha a && u == '_' && kwTailMatch kw rest
  | _ => false

/-- `re.match(".*[a-z]_kw_[0-9].*", s)` succeeds: an occurrence of the
inner pattern starts at a position reachable through non-newline
characters. -/
def hcPatternSearch (kw : List Char) : List Char → Bool
  | [] => false
  | c :: rest => hcPatternAt kw (c :: rest) || (c != '\n' && hcPatternSearch kw rest)

/-- `core_pattern = re.compile(".*[a-z]_(core|rnaseq|cdna|otherfeatures)_[0-9].*")` -/
def core_pattern_match (uri : String) : Bool :=
  hcPatternSearch "core".data uri.data || hcPatternSearch "rnaseq".data uri.data
    || hcPatternSearch "cdna".data uri.data || hcPatternSearch "otherfeatures".data uri.data

/-- `variation_pattern = re.compile(".*[a-z]_variation_[0-9].*")` -/
def variation_pattern_match (uri : String) : Bool :=
  hcPatternSearch "variation".data uri.data

/-- `compara_pattern = re.compile(".*[a-z]_compara_[0-9].*")` -/
def compara_pattern_match (uri : String) : Bool :=
  hcPatternSearch "compara".data uri.data

/-- `funcgen_pattern = re.compile(".*[a-z]_funcgen_[0-9].*")` -/
def funcgen_pattern_match (uri : String) : Bool :=
  hcPatternSearch "funcgen".data uri.data

/-- `groups_for_uri`: find which HC group to run on a given database.
The source tests the patterns in the order core, variation, funcgen,
compara and returns a singleton list of the configured group for the first
match, `None` otherwise. -/
def groups_for_uri (cfg : Config) (uri : String) : Option (List String) :=
  if core_pattern_match uri then some [cfg.core_handover_group]
  else if variation_pattern_match uri then some [cfg.variation_handover_group]
  else if funcgen_pattern_match uri then some [cfg.funcgen_handover_group]
  else if compara_pattern_match uri then some [cfg.compara_handover_group]
  else none

/-- The Classifier contract as an ordered rule table: (predicate, group)
pairs in the order core-like, variation-like, funcgen-like, compara-like. -/
def classifier_rules (cfg : Config) : List ((String → Bool) × String) :=
  [(core_pattern_match, cfg.core_handover_group),
   (variation_pattern_match, cfg.variation_handover_group),
   (funcgen_pattern_match, cfg.funcgen_handover_group),
   (compara_pattern_match, cfg.compara_handover_group)]

/-- Spec-side classifier: the group bound to the first matching rule of
the ordered table, or nothing. -/
def classify_spec (cfg : Config) (uri : String) : Option (List String) :=
  match (classifier_rules cfg).find? (fun r => r.1 uri) with
  | none => none
  | some r => some [r.2]

/-! ### Intake helpers -/

/-- `get_tgt_uri`: staging URI plus the database name parsed from the
source URI; the external URL parser is passed in as `urlDatabase`. -/
def get_tgt_uri (cfg : Config) (urlDatabase : String → String) (src_uri : String) : String :=
  cfg.staging_uri ++ urlDatabase src_uri

/-- `check_db`: raise `ValueError` when the source database does not
exist; the external `database_exists` result is passed in as `dbExists`. -/
def check_db (dbExists : Bool) (uri : String) : Except PyErr Unit :=
  if dbExists == false then .error (.valueError (uri ++ " does not exist"))
  else .ok ()

/-- `submit_hc`: submit the source database for healthchecking.  The job id
returned by the external `hc_client.submit_job` is passed in as `hcJobId`;
it is recorded on the spec, `process_checked_db` is enqueued, and one
"HC submitted" e-mail is sent.  Returns the updated spec and the e-mails
sent. -/
def submit_hc (_cfg : Config) (spec : HandoverSpec) (_groups : List String)
    (hcJobId : String) : HandoverSpec × List EmailMsg :=
  ({spec with hc_job_id := some hcJobId},
   [⟨spec.contact, "HC submitted", spec.src_uri ++ " has been submitted for checking"⟩])

/-- `submit_copy`: submit the source database for copying.  Reading
`spec['tgt_uri']` (an argument of the external submit call) raises
`KeyError` when the key is absent; otherwise the job id returned by
`db_copy_client.submit_job` (passed in as `copyJobId`) is recorded and
`process_copied_db` is enqueued.  No e-mail is sent. -/
def submit_copy (spec : HandoverSpec) (copyJobId : String) : Except PyErr HandoverSpec :=
  match spec.tgt_uri with
  | none => .error (.keyError "tgt_uri")
  | some _ => .ok {spec with copy_job_id := some copyJobId}

/-! ### Celery steps -/

/-- Outcome of one execution of `process_checked_db`:
`retry` for `raise self.retry()`, `finished` for a normal return (with the
e-mails sent and whether a copy job was submitted), `raised` for a
propagating exception. -/
inductive CheckedOutcome where
  | retry (spec : HandoverSpec)
  | finished (emails : List EmailMsg) (copySubmitted : Bool) (spec : HandoverSpec)
  | raised (e : PyErr)
  deriving DecidableEq, Repr

/-- One execution of the `process_checked_db` task.  The result of
`hc_client.retrieve_job` is passed in as `retrieve` (`.error` for a raised
`QueryError`); `copyJobId` is the id the external copy submit would
return if reached. -/
def process_checked_db (cfg : Config) (hc_job_id : String) (spec : HandoverSpec)
    (retrieve : Except String JobResult) (copyJobId : String) : CheckedOutcome :=
  match retrieve with
  | .error msg => .raised (.queryError msg)
  | .ok result =>
    match result.status with
    | none => .raised (.keyError "status")
    | some st =>
      if st == "incomplete" || st == "running" || st == "submitted" then
        .retry spec
      else if st == "failed" then
        .finished [⟨spec.contact, "HC failed to run",
          "\nRunning healthchecks vs " ++ spec.src_uri ++ " failed to execute.\nPlease see "
            ++ cfg.hc_web_uri ++ hc_job_id ++ "\n"⟩] false spec
      else
        match result.output with
        | none => .raised (.keyError "output")
        | some out =>
          match out.status with
          | none => .raised (.keyError "status")
          | some ost =>
            if ost == "failed" then
              .finished [⟨spec.contact, "HC ran but failed",
                "\nRunning healthchecks vs " ++ spec.src_uri
                  ++ " completed but found failures.\nPlease see "
                  ++ cfg.hc_web_uri ++ hc_job_id ++ "\n"⟩] false spec
            else
              match submit_copy spec copyJobId with
              | .error e => .raised e
              | .ok spec' => .finished [] true spec'

/-- `submit_metadata_update`: placeholder, returns a fixed job id. -/
def submit_metadata_update (_uri : String) : String := "metaplaceholder_db_id"

/-- Outcome of one execution of `process_copied_db`: as `CheckedOutcome`,
with `metaSubmitted`/`metaJobId` recording whether a metadata-update job
was submitted and the id handed to `process_db_metadata`. -/
inductive CopiedOutcome where
  | retry (spec : HandoverSpec)
  | finished (emails : List EmailMsg) (metaSubmitted : Bool) (metaJobId : Option String)
      (spec : HandoverSpec)
  | raised (e : PyErr)
  deriving DecidableEq, Repr

/-- One execution of the `process_copied_db` task.  The result of
`db_copy_client.retrieve_job` is passed in as `retrieve`. -/
def process_copied_db (cfg : Config) (copy_job_id : String) (spec : HandoverSpec)
    (retrieve : Except String JobResult) : CopiedOutcome :=
  match retrieve with
  | .error msg => .raised (.queryError msg)
  | .ok result =>
    match result.status with
    | none => .raised (.keyError "status")
    | some st =>
      if st == "incomplete" || st == "running" || st == "submitted" then
        .retry spec
      else if st == "failed" then
        match spec.tgt_uri with
        | none => .raised (.keyError "tgt_uri")
        | some tgt =>
          .finished [⟨spec.contact, "Database copy failed",
            "\nCopying " ++ spec.src_uri ++ " to " ++ tgt ++ " failed.\nPlease see "
              ++ cfg.copy_web_uri ++ copy_job_id ++ "\n"⟩] false none spec
      else
        match spec.tgt_uri with
        | none => .raised (.keyError "tgt_uri")
        | some tgt =>
          .finished [] true (some (submit_metadata_update tgt)) spec

/-- One execution of the `process_db_metadata` task: logs and returns;
no e-mail, no spec change. -/
def process_db_metadata (_meta_job_id : String) (spec : HandoverSpec) :
    List EmailMsg × HandoverSpec :=
  ([], spec)

/-! ### Intake -/

/-- Side effects of `handover_database`. -/
structure IntakeEffects where
  emails : List EmailMsg
  hcSubmitted : Bool
  copySubmitted : Bool
  deriving DecidableEq, Repr

/-- `handover_database`: derive `tgt_uri` when absent, assign the handover
token (the fresh `uuid` is passed in as `token`), check the source
database exists, classify the source URI, and submit either health checks
or a copy.  External results are passed in: `urlDatabase` (URL parser),
`dbExists` (`database_exists`), `hcJobId`/`copyJobId` (ids the external
submit calls would return). -/
def handover_database (cfg : Config) (urlDatabase : String → String) (dbExists : Bool)
    (token hcJobId copyJobId : String) (spec : HandoverSpec) :
    Except PyErr (HandoverSpec × IntakeEffects) :=
  let spec1 := match spec.tgt_uri with
    | none => {spec with tgt_uri := some (get_tgt_uri cfg urlDatabase spec.src_uri)}
    | some _ => spec
  let spec2 := {spec1 with handover_token := some token}
  match check_db dbExists spec2.src_uri with
  | .error e => .error e
  | .ok _ =>
    match groups_for_uri cfg spec2.src_uri with
    | none =>
      match submit_copy spec2 copyJobId with
      | .error e => .error e
      | .ok spec3 => .ok (spec3, ⟨[], false, true⟩)
    | some groups =>
      let p := submit_hc cfg spec2 groups hcJobId
      .ok (p.1, ⟨p.2, true, false⟩)

/-! ### Deferred-execution driver for `process_checked_db`

Celery re-executes the task with unchanged arguments after each
`self.retry()`; the driver consumes one `retrieve_job` result per
execution and accumulates the observable effects. -/

/-- Effects accumulated over successive executions of `process_checked_db`:
number of reschedules, e-mails sent, number of copy-job submissions. -/
structure DriveAcc where
  retries : Nat
  emails : List EmailMsg
  copies : Nat
  deriving DecidableEq, Repr

/-- Result of driving `process_checked_db` over a list of poll results. -/
inductive DriveResult where
  | terminal (acc : DriveAcc) (spec : HandoverSpec)
  | errored (acc : DriveAcc) (e : PyErr)
  | exhausted (acc : DriveAcc) (spec : HandoverSpec)
  deriving DecidableEq, Repr

/-- Drive `process_checked_db`: run one execution per poll result,
rescheduling on `retry`, stopping at a normal return or exception. -/
def drive_checked (cfg : Config) (hc_job_id copyJobId : String) :
    List (Except String JobResult) → HandoverSpec → DriveAcc → DriveResult
  | [], spec, acc => .exhausted acc spec
  | r :: rs, spec, acc =>
    match process_checked_db cfg hc_job_id spec r copyJobId with
    | .retry spec' =>
      drive_checked cfg hc_job_id copyJobId rs spec' {acc with retries := acc.retries + 1}
    | .finished emails copied spec' =>
      .terminal ⟨acc.retries, acc.emails ++ emails,
        acc.copies + (if copied then 1 else 0)⟩ spec'
    | .raised e => .errored acc e

/-! ### Concrete fixtures -/

/-- A concrete configuration for closed evaluations. -/
def cfg0 : Config :=
  ⟨"staging/", "hc", "hcweb/", "copy", "copyweb/", "smtp",
   "grp-core", "grp-variation", "grp-compara", "grp-funcgen"⟩

/-- A concrete post-intake handover request. -/
def spec0 : HandoverSpec :=
  ⟨"mysql://server/homo_sapiens_core_92_38", "submitter@ebi.ac.uk",
   some "staging/homo_sapiens_core_92_38", some "token-1", none, none, none⟩

/-! ### Claims -/

/-- C1: for a validation job polled with status sequence submitted,
running, incomplete, succeeded (clean nested output), `process_checked_db`
reschedules itself exactly 3 times, then submits the copy job exactly
once, with exactly one "HC submitted" notification (sent by `submit_hc`)
and zero failure notifications. -/
theorem C1_validation_success_flow (cfg : Config) (spec : HandoverSpec)
    (groups : List String) (t hcid cid : String) :
    (submit_hc cfg {spec with tgt_uri := some t} groups hcid).2
        = [⟨spec.contact, "HC submitted",
            spec.src_uri ++ " has been submitted for checking"⟩] ∧
    drive_checked cfg hcid cid
        [.ok ⟨some "submitted", none⟩, .ok ⟨some "running", none⟩,
         .ok ⟨some "incomplete", none⟩, .ok ⟨some "succeeded", some ⟨some "succeeded"⟩⟩]
        (submit_hc cfg {spec with tgt_uri := some t} groups hcid).1 ⟨0, [], 0⟩
      = .terminal ⟨3, [], 1⟩
          {spec with tgt_uri := some t, hc_job_id := some hcid, copy_job_id := some cid} :=
  ⟨rfl, rfl⟩

/-- C2: in both awaiting steps, a `QueryError` from the retrieve call, and
a malformed status payload (missing `status` key, or a succeeded status
with no nested output, or a nested output with no status), propagate as a
raised exception; none of them is the rescheduling `retry` outcome. -/
theorem C2_query_error_propagates (cfg : Config) (hcid cjid cid msg : String)
    (spec : HandoverSpec) :
    process_checked_db cfg hcid spec (.error msg) cid = .raised (.queryError msg) ∧
    process_copied_db cfg cjid spec (.error msg) = .raised (.queryError msg) ∧
    process_checked_db cfg hcid spec (.ok ⟨none, none⟩) cid = .raised (.keyError "status") ∧
    process_copied_db cfg cjid spec (.ok ⟨none, none⟩) = .raised (.keyError "status") ∧
    process_checked_db cfg hcid spec (.ok ⟨some "succeeded", none⟩) cid
      = .raised (.keyError "output") ∧
    process_checked_db cfg hcid spec (.ok ⟨some "succeeded", some ⟨none⟩⟩) cid
      = .raised (.keyError "status") ∧
    (∀ s, process_checked_db cfg hcid spec (.error msg) cid ≠ .retry s) ∧
    (∀ s, process_copied_db cfg cjid spec (.error msg) ≠ .retry s) ∧
    (∀ s, process_checked_db cfg hcid spec (.ok ⟨some "succeeded", none⟩) cid ≠ .retry s) :=
  ⟨rfl, rfl, rfl, rfl, rfl, rfl,
   fun _ h => CheckedOutcome.noConfusion h,
   fun _ h => CopiedOutcome.noConfusion h,
   fun _ h => CheckedOutcome.noConfusion h⟩

/-- C3 counterexample: on a succeeded copy job, `process_copied_db`
submits the metadata update (`metaSubmitted = true`, job id
`metaplaceholder_db_id` handed to `process_db_metadata`) but returns the
request unchanged: its metadata job-id field is still unassigned, so the
id is not recorded on the request. -/
theorem C3_cex_metadata_id_not_recorded :
    process_copied_db cfg0 "copy-1" spec0 (.ok ⟨some "succeeded", none⟩)
      = .finished [] true (some "metaplaceholder_db_id") spec0 ∧
    spec0.metadata_job_id = none :=
  ⟨rfl, rfl⟩

/-- C3 amended: when the copy job succeeds, the Coordinator submits the
metadata-update job and passes the resulting job id
(`metaplaceholder_db_id`) to the `process_db_metadata` step, but does not
record it on the request: the request is returned unchanged and its
metadata job-id field keeps its value (in particular stays unassigned). -/
theorem C3_metadata_submitted_not_recorded (cfg : Config) (cjid t : String)
    (spec : HandoverSpec) :
    process_copied_db cfg cjid {spec with tgt_uri := some t} (.ok ⟨some "succeeded", none⟩)
      = .finished [] true (some "metaplaceholder_db_id") {spec with tgt_uri := some t} ∧
    ({spec with tgt_uri := some t} : HandoverSpec).metadata_job_id = spec.metadata_job_id :=
  ⟨rfl, rfl⟩

/-- C4 counterexample: a duplicate execution of the validation-succeeded
step on a request that already records copy job id `copy-1` submits a new
copy job anyway (`copySubmitted = true`) and sets the copy job-id field a
second time, overwriting it with `copy-2`. -/
theorem C4_cex_resubmits_copy :
    process_checked_db cfg0 "hc-1" {spec0 with copy_job_id := some "copy-1"}
        (.ok ⟨some "succeeded", some ⟨some "succeeded"⟩⟩) "copy-2"
      = .finished [] true {spec0 with copy_job_id := some "copy-2"} :=
  rfl

/-- C4 amended: the steps are not idempotent with respect to duplicate
execution: whatever copy job id is already recorded, a re-executed
validation-succeeded step always submits a new copy job and overwrites the
copy job-id field with the new id, and `submit_hc` always overwrites the
validation job-id field with the id of the job it just submitted. -/
theorem C4_steps_always_resubmit (cfg : Config) (hcid prev cid t : String)
    (spec : HandoverSpec) (groups : List String) :
    process_checked_db cfg hcid {spec with tgt_uri := some t, copy_job_id := some prev}
        (.ok ⟨some "succeeded", some ⟨some "succeeded"⟩⟩) cid
      = .finished [] true {spec with tgt_uri := some t, copy_job_id := some cid} ∧
    submit_copy {spec with tgt_uri := some t, copy_job_id := some prev} cid
      = .ok {spec with tgt_uri := some t, copy_job_id := some cid} ∧
    (submit_hc cfg spec groups hcid).1.hc_job_id = some hcid :=
  ⟨rfl, rfl, rfl⟩

/-- C5: for every identifier, `groups_for_uri` agrees with the ordered
rule table evaluated first-match-wins in the order core-like,
variation-like, funcgen-like, compara-like: it returns the group bound to
the first matching rule, nothing when no rule matches, and an identifier
matching several rules gets the earliest rule's group. -/
theorem C5_first_match_wins (cfg : Config) (uri : String) :
    groups_for_uri cfg uri = classify_spec cfg uri := by
  unfold groups_for_uri classify_spec classifier_rules
  by_cases h1 : core_pattern_match uri <;>
    by_cases h2 : variation_pattern_match uri <;>
      by_cases h3 : funcgen_pattern_match uri <;>
        by_cases h4 : compara_pattern_match uri <;>
          simp [h1, h2, h3, h4, List.find?]

/-- C6: on a succeeded validation job whose nested output status is
`failed`, `process_checked_db` sends exactly one "HC ran but failed"
notification to the contact, submits no copy job, and terminates with the
request unchanged. -/
theorem C6_hc_ran_but_failed (cfg : Config) (hcid cid : String) (spec : HandoverSpec) :
    process_checked_db cfg hcid spec (.ok ⟨some "succeeded", some ⟨some "failed"⟩⟩) cid
      = .finished [⟨spec.contact, "HC ran but failed",
          "\nRunning healthchecks vs " ++ spec.src_uri
            ++ " completed but found failures.\nPlease see "
            ++ cfg.hc_web_uri ++ hcid ++ "\n"⟩] false spec :=
  rfl

/-- C7: on a failed copy job, `process_copied_db` sends exactly one
"Database copy failed" notification to the contact, whose body references
the job (`copy_web_uri ++ job id`), submits no metadata job, and
terminates with the request unchanged. -/
theorem C7_copy_failed (cfg : Config) (cjid t : String) (spec : HandoverSpec) :
    process_copied_db cfg cjid {spec with tgt_uri := some t} (.ok ⟨some "failed", none⟩)
      = .finished [⟨spec.contact, "Database copy failed",
          "\nCopying " ++ spec.src_uri ++ " to " ++ t ++ " failed.\nPlease see "
            ++ cfg.copy_web_uri ++ cjid ++ "\n"⟩] false none {spec with tgt_uri := some t} :=
  rfl

/-- C8: when the source identifier matches no classification rule, intake
submits the copy job directly: the validation client is never invoked
(`hcSubmitted = false`), no validation job id is assigned
(`hc_job_id = none` in the result), the copy job is submitted
(`copySubmitted = true`) and its id recorded. -/
theorem C8_no_group_skips_validation (cfg : Config) (urlDatabase : String → String)
    (tok hcid cid uri contact t : String)
    (h : groups_for_uri cfg uri = none) :
    handover_database cfg urlDatabase true tok hcid cid
        ⟨uri, contact, some t, none, none, none, none⟩
      = .ok (⟨uri, contact, some t, some tok, none, some cid, none⟩,
             ⟨[], false, true⟩) := by
  simp [handover_database, check_db, submit_copy, h]

/-- C8 witness at a concrete non-matching identifier. -/
theorem C8_no_group_skips_validation_witness :
    groups_for_uri cfg0 "mysql://server/testdb" = none ∧
    handover_database cfg0 (fun s => s) true "tok" "hc-1" "copy-1"
        ⟨"mysql://server/testdb", "submitter@ebi.ac.uk", some "staging/testdb",
         none, none, none, none⟩
      = .ok (⟨"mysql://server/testdb", "submitter@ebi.ac.uk", some "staging/testdb",
              some "tok", none, some "copy-1", none⟩, ⟨[], false, true⟩) :=
  ⟨rfl, C8_no_group_skips_validation cfg0 (fun s => s) "tok" "hc-1" "copy-1"
    "mysql://server/testdb" "submitter@ebi.ac.uk" "staging/testdb" rfl⟩

/-- C9: for a request matching no classification rule whose copy job
succeeds, zero notifications are sent over the whole pipeline run: intake
through `submit_copy` sends no e-mail, the copy-success branch of
`process_copied_db` sends no e-mail while handing off to the metadata
stage, and `process_db_metadata` sends no e-mail. -/
theorem C9_no_hc_path_sends_no_email (cfg : Config) (urlDatabase : String → String)
    (tok hcid cid uri contact t mid : String)
    (h : groups_for_uri cfg uri = none) :
    handover_database cfg urlDatabase true tok hcid cid
        ⟨uri, contact, some t, none, none, none, none⟩
      = .ok (⟨uri, contact, some t, some tok, none, some cid, none⟩,
             ⟨[], false, true⟩) ∧
    process_copied_db cfg cid ⟨uri, contact, some t, some tok, none, some cid, none⟩
        (.ok ⟨some "succeeded", none⟩)
      = .finished [] true (some "metaplaceholder_db_id")
          ⟨uri, contact, some t, some tok, none, some cid, none⟩ ∧
    process_db_metadata mid ⟨uri, contact, some t, some tok, none, some cid, none⟩
      = ([], ⟨uri, contact, some t, some tok, none, some cid, none⟩) := by
  refine ⟨?_, rfl, rfl⟩
  simp [handover_database, check_db, submit_copy, h]

/-- C9 witness at a concrete non-matching identifier. -/
theorem C9_no_hc_path_sends_no_email_witness :
    groups_for_uri cfg0 "mysql://server/testdb" = none ∧
    (handover_database cfg0 (fun s => s) true "tok" "hc-1" "copy-1"
        ⟨"mysql://server/testdb", "submitter@ebi.ac.uk", some "staging/testdb",
         none, none, none, none⟩
      = .ok (⟨"mysql://server/testdb", "submitter@ebi.ac.uk", some "staging/testdb",
              some "tok", none, some "copy-1", none⟩, ⟨[], false, true⟩) ∧
    process_copied_db cfg0 "copy-1"
        ⟨"mysql://server/testdb", "submitter@ebi.ac.uk", some "staging/testdb",
         some "tok", none, some "copy-1", none⟩ (.ok ⟨some "succeeded", none⟩)
      = .finished [] true (some "metaplaceholder_db_id")
          ⟨"mysql://server/testdb", "submitter@ebi.ac.uk", some "staging/testdb",
           some "tok", none, some "copy-1", none⟩ ∧
    process_db_metadata "meta-1"
        ⟨"mysql://server/testdb", "submitter@ebi.ac.uk", some "staging/testdb",
         some "tok", none, some "copy-1", none⟩
      = ([], ⟨"mysql://server/testdb", "submitter@ebi.ac.uk", some "staging/testdb",
              some "tok", none, some "copy-1", none⟩)) :=
  ⟨rfl, C9_no_hc_path_sends_no_email cfg0 (fun s => s) "tok" "hc-1" "copy-1"
    "mysql://server/testdb" "submitter@ebi.ac.uk" "staging/testdb" "meta-1" rfl⟩

/-- C10: for every identifier, `groups_for_uri` returns either nothing or
a list of exactly one group: never an empty list and never more than one
group. -/
theorem C10_zero_or_one_group (cfg : Config) (uri : String) :
    groups_for_uri cfg uri = none ∨ ∃ g, groups_for_uri cfg uri = some [g] := by
  unfold groups_for_uri
  split_ifs <;> first | exact Or.inl rfl | exact Or.inr ⟨_, rfl⟩
